import Mathlib

/-!
Shallow embedding of `tortoise-filters` (files
`tortoise_filters/filter_fields.py` and `tortoise_filters/filterset.py`).

Python values are modelled by `PyVal`, raised exceptions by `PyErr`
(`Except PyErr` is the result of any call that can raise), a Tortoise
queryset by the ordered list of keyword predicates chained onto it via
`.filter(**kwargs)`, and awaiting a queryset (query execution) by a
`Bool` flag in the result of `filter_queryset`.  Field-filter instances
are `FilterState` records; the class of an instance is a `FilterKind`
and method dispatch is by kind.  The filter-set orchestrator's
class-level attribute dictionary is a `ClassDict` (an ordered
association list, mirroring Python's class `__dict__`), and
`FilterSet.filter_queryset` threads it explicitly, since the Python code
mutates the class-level descriptors in place.
-/

namespace TortoiseFilters

/-- Scalar Python values (the possible elements of a list value). -/
inductive PyScalar where
  | none : PyScalar
  | int (n : Int) : PyScalar
  | str (s : String) : PyScalar
  | datetime (t : Nat) : PyScalar
  | date (d : Nat) : PyScalar
  deriving DecidableEq, Repr

/-- Python values that flow through the library: `None`, ints, strings,
lists (of scalars), `datetime.datetime` and `datetime.date` (each
identified by an abstract ordinal). -/
inductive PyVal where
  | none : PyVal
  | int (n : Int) : PyVal
  | str (s : String) : PyVal
  | list (l : List PyScalar) : PyVal
  | datetime (t : Nat) : PyVal
  | date (d : Nat) : PyVal
  deriving DecidableEq, Repr

/-- Exceptions the embedded code can raise.  `invalidLookup e` stands for
`Exception(f'Invalid lookup expression: {e}')`, `fieldNotOnModel` for
`Exception("this field does not belong to model")`. -/
inductive PyErr where
  | typeError (msg : String) : PyErr
  | valueError (msg : String) : PyErr
  | invalidLookup (e : Option String) : PyErr
  | fieldNotOnModel : PyErr
  deriving DecidableEq, Repr

/-- Decidable equality of call results (`Except` carries none in
core). -/
instance {ε α : Type} [DecidableEq ε] [DecidableEq α] : DecidableEq (Except ε α) := fun a b =>
  match a, b with
  | Except.error e1, Except.error e2 =>
    if h : e1 = e2 then isTrue (by rw [h]) else isFalse (by intro hc; cases hc; exact h rfl)
  | Except.error _, Except.ok _ => isFalse (by intro hc; cases hc)
  | Except.ok _, Except.error _ => isFalse (by intro hc; cases hc)
  | Except.ok a1, Except.ok a2 =>
    if h : a1 = a2 then isTrue (by rw [h]) else isFalse (by intro hc; cases hc; exact h rfl)

/-- Decimal-digit run parser for `int(str)`: accumulates digits, fails
at the first non-digit. -/
def pyDigitsAux : List Char → Nat → Option Nat
  | [], acc => some acc
  | c :: cs, acc =>
    if c.isDigit then pyDigitsAux cs (acc * 10 + (c.toNat - Char.toNat '0'))
    else Option.none

/-- A non-empty run of decimal digits, else failure. -/
def pyDigits? : List Char → Option Nat
  | [] => Option.none
  | cs => pyDigitsAux cs 0

/-- Python's `int(str)` on a string: an optional sign followed by a
non-empty digit run parses, anything else raises `ValueError`. -/
def pyStrToInt? (s : String) : Option Int :=
  match s.data with
  | '-' :: cs => (pyDigits? cs).map (fun n => -(n : Int))
  | '+' :: cs => (pyDigits? cs).map (fun n => (n : Int))
  | cs => (pyDigits? cs).map (fun n => (n : Int))

/-- Python's `int(x)` builtin on the embedded value universe: ints pass
through, strings are parsed (a non-numeric string raises `ValueError`,
as in CPython), every other type raises `TypeError`. -/
def pyIntCoerce : PyVal → Except PyErr Int
  | PyVal.int n => Except.ok n
  | PyVal.str s =>
      match pyStrToInt? s with
      | some n => Except.ok n
      | Option.none => Except.error (PyErr.valueError "invalid literal for int() with base 10")
  | PyVal.none => Except.error (PyErr.typeError "int() argument must not be None")
  | PyVal.list _ => Except.error (PyErr.typeError "int() argument must not be a list")
  | PyVal.datetime _ => Except.error (PyErr.typeError "int() argument must not be a datetime")
  | PyVal.date _ => Except.error (PyErr.typeError "int() argument must not be a date")

/-- A queryset, represented by the keyword predicates chained onto it by
`.filter(**kwargs)` calls, in order. -/
structure QuerySet where
  filters : List (String × PyVal)
  deriving DecidableEq, Repr

/-- `queryset.filter(**kwargs)`: chains the keyword predicates. -/
def QuerySet.filter (qs : QuerySet) (kwargs : List (String × PyVal)) : QuerySet :=
  ⟨qs.filters ++ kwargs⟩

/-- The instance state of a field filter: `self.field_name`,
`self.lookup_expr` (`Option` because Python uses `None`), `self.value`. -/
structure FilterState where
  field_name : String
  lookup_expr : Option String
  value : PyVal
  deriving DecidableEq, Repr

/-- `BaseFieldFilter._kwargs_builder`: key
`field_name + "__" + lookup_expr` when a lookup expression is set,
bare `field_name` otherwise. -/
def kwargs_builder (f : FilterState) (value : PyVal) : List (String × PyVal) :=
  match f.lookup_expr with
  | some e => [(f.field_name ++ "__" ++ e, value)]
  | Option.none => [(f.field_name, value)]

/-- `BaseFieldFilter._check_lookup_exr`: raises
`Exception(f'Invalid lookup expression: {lookup_expr}')` when the
lookup expression is not in the class's `available_expr` list. -/
def check_lookup_exr (avail : List (Option String)) (f : FilterState) : Except PyErr Unit :=
  if f.lookup_expr ∈ avail then Except.ok () else Except.error (PyErr.invalidLookup f.lookup_expr)

/-- The result of a `filter_queryset` call: the (possibly mutated)
filter state, the returned queryset, and whether the queryset was
awaited (the underlying query executed) during the call. -/
abbrev FilterResult := Except PyErr (FilterState × QuerySet × Bool)

namespace NumberFilter

/-- `NumberFilter.available_expr`. -/
def available_expr : List (Option String) :=
  [some "gt", some "gte", some "lt", some "lte", Option.none]

/-- `NumberFilter.to_internal_value`: `int(self.value)`, re-raising a
`TypeError` as `TypeError('Invalid type')` and letting any other
exception (a `ValueError` from a non-numeric string) propagate. -/
def to_internal_value (value : PyVal) : Except PyErr Unit :=
  match pyIntCoerce value with
  | Except.ok _ => Except.ok ()
  | Except.error (PyErr.typeError _) => Except.error (PyErr.typeError "Invalid type")
  | Except.error e => Except.error e

/-- `NumberFilter.filter_queryset`. -/
def filter_queryset (f : FilterState) (qs : QuerySet) (value : PyVal) : FilterResult :=
  if f.value = PyVal.none then Except.ok (f, qs, false)
  else
    match check_lookup_exr available_expr f with
    | Except.error e => Except.error e
    | Except.ok _ =>
      match to_internal_value f.value with
      | Except.error e => Except.error e
      | Except.ok _ => Except.ok (f, qs.filter (kwargs_builder f value), false)

end NumberFilter

namespace CharFilter

/-- `CharFilter.available_expr`. -/
def available_expr : List (Option String) :=
  [some "iexact", some "exact", some "contains", some "icontains", some "startswith",
   some "istartswith", some "endswith", some "iendswith", Option.none]

/-- `CharFilter.to_internal_value`: `str(self.value)` never raises on
the embedded value universe. -/
def to_internal_value (_value : PyVal) : Except PyErr Unit :=
  Except.ok ()

/-- `CharFilter.filter_queryset`. -/
def filter_queryset (f : FilterState) (qs : QuerySet) (value : PyVal) : FilterResult :=
  if f.value = PyVal.none then Except.ok (f, qs, false)
  else
    match check_lookup_exr available_expr f with
    | Except.error e => Except.error e
    | Except.ok _ =>
      match to_internal_value f.value with
      | Except.error e => Except.error e
      | Except.ok _ => Except.ok (f, qs.filter (kwargs_builder f value), false)

end CharFilter

namespace InFilter

/-- `InFilter.available_expr`. -/
def available_expr : List (Option String) := [Option.none]

/-- `InFilter.to_internal_value`: raises `TypeError('Invalid type')`
unless the value is a list. -/
def to_internal_value (value : PyVal) : Except PyErr Unit :=
  match value with
  | PyVal.list _ => Except.ok ()
  | _ => Except.error (PyErr.typeError "Invalid type")

/-- `InFilter.filter_queryset`: never calls `_check_lookup_exr`;
instead it overwrites `self.lookup_expr` with `'in'` and then
validates and builds the predicate.  (The overwrite happens before
`to_internal_value` in the source; it is observable here on the
success path, the only path on which the loop keeps going.)  Note the
overwritten `lookup_expr` does not change `self.value`, which is what
`to_internal_value` inspects. -/
def filter_queryset (f : FilterState) (qs : QuerySet) (value : PyVal) : FilterResult :=
  if f.value = PyVal.none then Except.ok (f, qs, false)
  else
    match to_internal_value f.value with
    | Except.error e => Except.error e
    | Except.ok _ =>
      Except.ok ({ f with lookup_expr := some "in" },
        qs.filter (kwargs_builder { f with lookup_expr := some "in" } value), false)

end InFilter

/-- The `available_expr` list shared by `DateTimeFilter` and
`DateFilter`. -/
def dateLookups : List (Option String) :=
  [some "exact", some "iexact", some "contains", some "icontains", some "gt", some "gte",
   some "lt", some "lte", some "range", some "isnull", some "year", some "month", some "day",
   some "week_day", some "hour", some "minute", some "second", Option.none]

namespace DateTimeFilter

/-- `DateTimeFilter.available_expr`. -/
def available_expr : List (Option String) := dateLookups

/-- `DateTimeFilter.to_internal_value`: `isinstance(self.value,
datetime.datetime)`. -/
def to_internal_value (value : PyVal) : Except PyErr Unit :=
  match value with
  | PyVal.datetime _ => Except.ok ()
  | _ => Except.error (PyErr.typeError "Invalid type")

/-- `DateTimeFilter._kwargs_builder` (an override textually identical
to the base implementation). -/
def kwargs_builder (f : FilterState) (value : PyVal) : List (String × PyVal) :=
  match f.lookup_expr with
  | some e => [(f.field_name ++ "__" ++ e, value)]
  | Option.none => [(f.field_name, value)]

/-- `DateTimeFilter.filter_queryset`. -/
def filter_queryset (f : FilterState) (qs : QuerySet) (value : PyVal) : FilterResult :=
  if f.value = PyVal.none then Except.ok (f, qs, false)
  else
    match check_lookup_exr available_expr f with
    | Except.error e => Except.error e
    | Except.ok _ =>
      match to_internal_value f.value with
      | Except.error e => Except.error e
      | Except.ok _ => Except.ok (f, qs.filter (kwargs_builder f value), false)

end DateTimeFilter

namespace DateFilter

/-- `DateFilter.available_expr`. -/
def available_expr : List (Option String) := dateLookups

/-- `DateFilter.to_internal_value`: `isinstance(self.value,
datetime.date)`; a `datetime.datetime` is also an instance of
`datetime.date` in Python. -/
def to_internal_value (value : PyVal) : Except PyErr Unit :=
  match value with
  | PyVal.date _ => Except.ok ()
  | PyVal.datetime _ => Except.ok ()
  | _ => Except.error (PyErr.typeError "Invalid type")

/-- `DateFilter._kwargs_builder` (an override textually identical to
the base implementation). -/
def kwargs_builder (f : FilterState) (value : PyVal) : List (String × PyVal) :=
  match f.lookup_expr with
  | some e => [(f.field_name ++ "__" ++ e, value)]
  | Option.none => [(f.field_name, value)]

/-- `DateFilter.filter_queryset`. -/
def filter_queryset (f : FilterState) (qs : QuerySet) (value : PyVal) : FilterResult :=
  if f.value = PyVal.none then Except.ok (f, qs, false)
  else
    match check_lookup_exr available_expr f with
    | Except.error e => Except.error e
    | Except.ok _ =>
      match to_internal_value f.value with
      | Except.error e => Except.error e
      | Except.ok _ => Except.ok (f, qs.filter (kwargs_builder f value), false)

end DateFilter

namespace NumberRangeFilter

/-- `NumberRangeFilter.available_expr`. -/
def available_expr : List (Option String) := [some "gte", some "gt", Option.none]

/-- `NumberRangeFilter.to_internal_value`: same body as
`NumberFilter.to_internal_value`. -/
def to_internal_value (value : PyVal) : Except PyErr Unit :=
  match pyIntCoerce value with
  | Except.ok _ => Except.ok ()
  | Except.error (PyErr.typeError _) => Except.error (PyErr.typeError "Invalid type")
  | Except.error e => Except.error e

/-- `NumberRangeFilter._kwargs_builder` (an override textually
identical, up to a debug print, to the base implementation). -/
def kwargs_builder (f : FilterState) (value : PyVal) : List (String × PyVal) :=
  match f.lookup_expr with
  | some e => [(f.field_name ++ "__" ++ e, value)]
  | Option.none => [(f.field_name, value)]

/-- `NumberRangeFilter.filter_queryset`: after chaining the predicate
it executes `a = await queryset` — the `true` flag — and then returns
the (chained, un-awaited) queryset. -/
def filter_queryset (f : FilterState) (qs : QuerySet) (value : PyVal) : FilterResult :=
  if f.value = PyVal.none then Except.ok (f, qs, false)
  else
    match check_lookup_exr available_expr f with
    | Except.error e => Except.error e
    | Except.ok _ =>
      match to_internal_value f.value with
      | Except.error e => Except.error e
      | Except.ok _ => Except.ok (f, qs.filter (kwargs_builder f value), true)

end NumberRangeFilter

/-- Static types appearing in value annotations and in the generated
dependency schema. -/
inductive PyType where
  | intT : PyType
  | strT : PyType
  | datetimeT : PyType
  | dateT : PyType
  | noneType : PyType
  | optional (t : PyType) : PyType
  | listOf (t : PyType) : PyType
  | union (a b : PyType) : PyType
  | annotatedQuery (t : PyType) : PyType
  deriving DecidableEq, Repr

/-- The concrete field-filter classes.  `inF` carries the `type_field`
constructor argument of `InFilter` (default `int`). -/
inductive FilterKind where
  | number : FilterKind
  | char : FilterKind
  | inF (type_field : PyType) : FilterKind
  | datetime : FilterKind
  | date : FilterKind
  | numberRange : FilterKind
  deriving DecidableEq, Repr

/-- `available_expr` of each class. -/
def available_expr_of : FilterKind → List (Option String)
  | FilterKind.number => NumberFilter.available_expr
  | FilterKind.char => CharFilter.available_expr
  | FilterKind.inF _ => InFilter.available_expr
  | FilterKind.datetime => DateTimeFilter.available_expr
  | FilterKind.date => DateFilter.available_expr
  | FilterKind.numberRange => NumberRangeFilter.available_expr

/-- `to_internal_value` of each class. -/
def to_internal_value_of : FilterKind → PyVal → Except PyErr Unit
  | FilterKind.number => NumberFilter.to_internal_value
  | FilterKind.char => CharFilter.to_internal_value
  | FilterKind.inF _ => InFilter.to_internal_value
  | FilterKind.datetime => DateTimeFilter.to_internal_value
  | FilterKind.date => DateFilter.to_internal_value
  | FilterKind.numberRange => NumberRangeFilter.to_internal_value

/-- `_kwargs_builder` as resolved on each class (`DateTimeFilter`,
`DateFilter` and `NumberRangeFilter` override it, the rest inherit
`BaseFieldFilter._kwargs_builder`). -/
def kwargs_builder_of : FilterKind → FilterState → PyVal → List (String × PyVal)
  | FilterKind.number => kwargs_builder
  | FilterKind.char => kwargs_builder
  | FilterKind.inF _ => kwargs_builder
  | FilterKind.datetime => DateTimeFilter.kwargs_builder
  | FilterKind.date => DateFilter.kwargs_builder
  | FilterKind.numberRange => NumberRangeFilter.kwargs_builder

/-- `filter_queryset` method dispatch. -/
def filter_queryset_of : FilterKind → FilterState → QuerySet → PyVal → FilterResult
  | FilterKind.number => NumberFilter.filter_queryset
  | FilterKind.char => CharFilter.filter_queryset
  | FilterKind.inF _ => InFilter.filter_queryset
  | FilterKind.datetime => DateTimeFilter.filter_queryset
  | FilterKind.date => DateFilter.filter_queryset
  | FilterKind.numberRange => NumberRangeFilter.filter_queryset

/-- Which classes call `_check_lookup_exr` in `filter_queryset`
(`InFilter` does not). -/
def checks_lookup : FilterKind → Bool
  | FilterKind.inF _ => false
  | _ => true

/-- The entry of key `'value'` in each class's `__annotations__`:
`NumberFilter` declares `value: int`, `CharFilter` `value: str`,
`InFilter` exposes `{'value': Annotated[Union[List[type_field], None],
Query(...)]}` through its `__annotations__` property,
`DateTimeFilter` `value: datetime.datetime`, `DateFilter`
`value: datetime.date`; `NumberRangeFilter` has no class-level `value`
annotation (lookup falls through to `BaseRangeFilter`, whose
annotations hold only `value_min` and `value_max`), so `.get('value')`
yields `None`. -/
def value_annot_of : FilterKind → Option PyType
  | FilterKind.number => some PyType.intT
  | FilterKind.char => some PyType.strT
  | FilterKind.inF tf => some (PyType.annotatedQuery (PyType.union (PyType.listOf tf) PyType.noneType))
  | FilterKind.datetime => some PyType.datetimeT
  | FilterKind.date => some PyType.dateT
  | FilterKind.numberRange => Option.none

/-- An entry of a filter-set class's `__dict__`: either a
`BaseFieldFilter` instance (a declared field filter) or any other
attribute. -/
inductive ClassAttr where
  | filter (k : FilterKind) (st : FilterState) : ClassAttr
  | other : ClassAttr
  deriving DecidableEq, Repr

/-- The class `__dict__` of a filter-set class, as an ordered
association list (Python dicts preserve insertion, i.e. declaration,
order). -/
structure ClassDict where
  attrs : List (String × ClassAttr)
  deriving DecidableEq, Repr

/-- The query-parameter mapping passed to `FilterSet.__init__`, as an
ordered association list with lookup on the first matching key. -/
abbrev QueryParams := List (String × PyVal)

/-- The loop body of `FilterSet.filter_queryset`: walks the class
`__dict__` in declaration order; for every `BaseFieldFilter` attribute
whose name is a key of `query_params` it assigns
`value.value = self.query_params[key]` and then calls
`value.filter_queryset(self.queryset, value.value)`, threading the
queryset, the mutated class attributes and the executed-query flag.
A raised exception aborts the loop and propagates. -/
def runFilters (params : QueryParams) :
    List (String × ClassAttr) → QuerySet → Except PyErr (List (String × ClassAttr) × QuerySet × Bool)
  | [], qs => Except.ok ([], qs, false)
  | (key, ClassAttr.filter k st) :: rest, qs =>
    match params.lookup key with
    | some v =>
      match filter_queryset_of k { st with value := v } qs v with
      | Except.error e => Except.error e
      | Except.ok (st', qs', ex') =>
        match runFilters params rest qs' with
        | Except.error e => Except.error e
        | Except.ok (rest', qs'', ex'') =>
          Except.ok ((key, ClassAttr.filter k st') :: rest', qs'', ex' || ex'')
    | Option.none =>
      match runFilters params rest qs with
      | Except.error e => Except.error e
      | Except.ok (rest', qs', ex) => Except.ok ((key, ClassAttr.filter k st) :: rest', qs', ex)
  | (key, ClassAttr.other) :: rest, qs =>
    match runFilters params rest qs with
    | Except.error e => Except.error e
    | Except.ok (rest', qs', ex) => Except.ok ((key, ClassAttr.other) :: rest', qs', ex)

/-- `BaseFilterSet.get_queryset`: `self.model.all()`, the queryset with
no predicate chained yet. -/
def get_queryset : QuerySet := ⟨[]⟩

namespace FilterSet

/-- `FilterSet.filter_queryset`: starts from `await self.get_queryset()`
and runs the declaration-order loop over the class `__dict__`.  The
returned `ClassDict` is the post-call state of the class-level
attribute dictionary (the descriptors live on the class, so this state
is shared by every instance of the filter-set class and persists after
the call). -/
def filter_queryset (cd : ClassDict) (params : QueryParams) :
    Except PyErr (ClassDict × QuerySet × Bool) :=
  match runFilters params cd.attrs get_queryset with
  | Except.error e => Except.error e
  | Except.ok (attrs', qs, ex) => Except.ok (⟨attrs'⟩, qs, ex)

end FilterSet

/-- A field of a Tortoise model (`fields_map` value); only
`model_field_name` is consulted. -/
structure ModelField where
  model_field_name : String
  deriving DecidableEq, Repr

/-- A Tortoise model: its `_meta.fields_map`. -/
structure TortoiseModel where
  fields_map : List (String × ModelField)
  deriving DecidableEq, Repr

/-- The model's field names, `[field.model_field_name for field in
model._meta.fields_map.values()]`. -/
def model_field_names (model : TortoiseModel) : List String :=
  model.fields_map.map (fun p => p.2.model_field_name)

/-- The `field_name` of every declared field filter among the class
attributes, in declaration order. -/
def filter_field_names (attrs : List (String × ClassAttr)) : List String :=
  attrs.filterMap (fun p =>
    match p.2 with
    | ClassAttr.filter _ st => some st.field_name
    | ClassAttr.other => Option.none)

/-- The loop of `BaseFilterSet.check_fields_appearance`: raises
`Exception("this field does not belong to model")` at the first filter
field name that is not a model field name. -/
def check_fields_loop (model_fields : List String) : List String → Except PyErr Unit
  | [] => Except.ok ()
  | fn :: rest =>
    if fn ∈ model_fields then check_fields_loop model_fields rest
    else Except.error PyErr.fieldNotOnModel

/-- `BaseFilterSet.check_fields_appearance`. -/
def check_fields_appearance (attrs : List (String × ClassAttr)) (model : TortoiseModel) :
    Except PyErr Unit :=
  check_fields_loop (model_field_names model) (filter_field_names attrs)

/-- A field of the generated dependency schema: a pydantic `FieldInfo`
with its annotation and default. -/
structure SchemaField where
  name : String
  annot : PyType
  default : PyVal
  deriving DecidableEq, Repr

/-- A field definition passed to `Dependencies.add_fields`: either a
`(annotation, default)` tuple or a bare default value. -/
inductive FieldDef where
  | tupleDef (t : Option PyType) (v : PyVal) : FieldDef
  | plain (v : PyVal) : FieldDef
  deriving DecidableEq, Repr

/-- `Optional[f_annotation]` where `f_annotation` may be Python `None`
(`Optional[None]` collapses to `NoneType`; it is kept as
`optional noneType` here). -/
def optional_of : Option PyType → PyType
  | some t => PyType.optional t
  | Option.none => PyType.optional PyType.noneType

/-- `cls.model_fields.update({name: field})` on one field: replaces an
existing field of that name in place, otherwise appends. -/
def update_field (fields : List SchemaField) (nf : SchemaField) : List SchemaField :=
  if fields.any (fun f => f.name = nf.name) then
    fields.map (fun f => if f.name = nf.name then nf else f)
  else fields ++ [nf]

/-- `Dependencies.add_fields`: for a tuple definition `(t, v)` the
resulting pydantic field is `FieldInfo(annotation=Optional[t],
default=None)`; for a bare default, `f_annotation` is `None` and the
field is `FieldInfo(annotation=Optional[None], default=None)`. -/
def add_fields (fields : List SchemaField) (defs : List (String × FieldDef)) :
    List SchemaField :=
  defs.foldl (fun acc p =>
    let ann : Option PyType :=
      match p.2 with
      | FieldDef.tupleDef t _ => t
      | FieldDef.plain _ => Option.none
    update_field acc ⟨p.1, optional_of ann, PyVal.none⟩) fields

/-- `BaseFilterSet.to_dependencies`: checks field appearance, then for
each declared field filter adds one schema field named after the
attribute, with definition `(value.__annotations__.get('value'),
None)`. -/
def to_dependencies (attrs : List (String × ClassAttr)) (model : TortoiseModel) :
    Except PyErr (List SchemaField) :=
  match check_fields_appearance attrs model with
  | Except.error e => Except.error e
  | Except.ok _ =>
    Except.ok (attrs.foldl (fun acc p =>
      match p.2 with
      | ClassAttr.filter k _ => add_fields acc [(p.1, FieldDef.tupleDef (value_annot_of k) PyVal.none)]
      | ClassAttr.other => acc) [])

/-- A Python class declaration, reduced to what ABC instantiation
checks: the abstract methods inherited from the base and the methods
the class (or a concrete ancestor) overrides. -/
structure PyClassDecl where
  abstractMethods : List String
  overriddenMethods : List String
  deriving DecidableEq, Repr

/-- A class with unimplemented abstract methods cannot be instantiated
(`TypeError` at the `cls(...)` call under Python's ABC machinery). -/
def PyClassDecl.instantiable (c : PyClassDecl) : Bool :=
  c.abstractMethods.all (fun m => m ∈ c.overriddenMethods)

/-- The `@abstractmethod`s of `BaseFieldFilter`: `filter_queryset` and
`to_internal_value`. -/
def base_abstract_methods : List String := ["filter_queryset", "to_internal_value"]

namespace NumberFilter

/-- The `NumberFilter` class declaration. -/
def decl : PyClassDecl := ⟨base_abstract_methods, ["filter_queryset", "to_internal_value"]⟩

end NumberFilter

namespace CharFilter

/-- The `CharFilter` class declaration. -/
def decl : PyClassDecl := ⟨base_abstract_methods, ["filter_queryset", "to_internal_value"]⟩

end CharFilter

namespace InFilter

/-- The `InFilter` class declaration. -/
def decl : PyClassDecl := ⟨base_abstract_methods, ["filter_queryset", "to_internal_value"]⟩

end InFilter

namespace DateTimeFilter

/-- The `DateTimeFilter` class declaration. -/
def decl : PyClassDecl := ⟨base_abstract_methods, ["filter_queryset", "to_internal_value"]⟩

end DateTimeFilter

namespace DateFilter

/-- The `DateFilter` class declaration. -/
def decl : PyClassDecl := ⟨base_abstract_methods, ["filter_queryset", "to_internal_value"]⟩

end DateFilter

namespace NumberRangeFilter

/-- The `NumberRangeFilter` class declaration. -/
def decl : PyClassDecl := ⟨base_abstract_methods, ["filter_queryset", "to_internal_value"]⟩

end NumberRangeFilter

namespace DateRangeFilter

/-- The `DateRangeFilter` class declaration: its body is only the
docstring `"""date range filter"""`; it overrides nothing. -/
def decl : PyClassDecl := ⟨base_abstract_methods, []⟩

end DateRangeFilter

namespace DateTimeRangeFilter

/-- The `DateTimeRangeFilter` class declaration: its body is only the
docstring `"""datetime range"""`; it overrides nothing. -/
def decl : PyClassDecl := ⟨base_abstract_methods, []⟩

end DateTimeRangeFilter

/-! ## Derived descriptions of the behaviour, used to state the claims -/

/-- The state of a filter after a successful `filter_queryset` call on
a non-`None` value: only `InFilter` mutates itself (it overwrites
`lookup_expr` with `'in'`). -/
def post_state (k : FilterKind) (f : FilterState) : FilterState :=
  match k with
  | FilterKind.inF _ => { f with lookup_expr := some "in" }
  | _ => f

/-- The state of a filter after a successful `filter_queryset` call:
unchanged when the value is `None` (the call is a no-op), otherwise
`post_state`. -/
def post_state_if (k : FilterKind) (f : FilterState) : FilterState :=
  if f.value = PyVal.none then f else post_state k f

/-- The keyword predicates one matched filter chains during the
filter-set loop when the parameter value is `v`: none when `v` is
`None`, otherwise the single predicate its `_kwargs_builder` yields. -/
def expected_entry (k : FilterKind) (st : FilterState) (v : PyVal) : List (String × PyVal) :=
  if v = PyVal.none then []
  else kwargs_builder_of k (post_state k { st with value := v }) v

/-- All keyword predicates the filter-set loop chains, in declaration
order: one batch per declared filter whose attribute name is a key of
`params`, nothing for other attributes. -/
def applied_kwargs (params : QueryParams) : List (String × ClassAttr) → List (String × PyVal)
  | [] => []
  | (key, ClassAttr.filter k st) :: rest =>
    (match params.lookup key with
     | some v => expected_entry k st v
     | Option.none => []) ++ applied_kwargs params rest
  | (_, ClassAttr.other) :: rest => applied_kwargs params rest

/-- The post-call state of one class-dictionary entry: a matched filter
descriptor gets the parameter value written into its `value` attribute
(and `InFilter` additionally its `lookup_expr` overwritten when the
value is not `None`); every other entry is untouched. -/
def post_attr (params : QueryParams) : String × ClassAttr → String × ClassAttr
  | (key, ClassAttr.filter k st) =>
    match params.lookup key with
    | some v => (key, ClassAttr.filter k (post_state_if k { st with value := v }))
    | Option.none => (key, ClassAttr.filter k st)
  | (key, ClassAttr.other) => (key, ClassAttr.other)

/-- The dependency schema the spec describes: exactly one field per
declared field filter, named after the filter's attribute name, with
annotation `Optional[<value annotation>]` and default `None`;
non-filter attributes contribute nothing. -/
def schema_spec (attrs : List (String × ClassAttr)) : List SchemaField :=
  attrs.filterMap (fun p =>
    match p.2 with
    | ClassAttr.filter k _ => some ⟨p.1, optional_of (value_annot_of k), PyVal.none⟩
    | ClassAttr.other => Option.none)

/-- Whether a value passes a filter class's `to_internal_value`:
coercible to `int` for the number filters, anything for `CharFilter`,
a list for `InFilter`, a `datetime` for `DateTimeFilter`, a `date` or
`datetime` for `DateFilter`. -/
def valid_value : FilterKind → PyVal → Bool
  | FilterKind.number, v =>
    match pyIntCoerce v with
    | Except.ok _ => true
    | Except.error _ => false
  | FilterKind.char, _ => true
  | FilterKind.inF _, v =>
    match v with
    | PyVal.list _ => true
    | _ => false
  | FilterKind.datetime, v =>
    match v with
    | PyVal.datetime _ => true
    | _ => false
  | FilterKind.date, v =>
    match v with
    | PyVal.date _ => true
    | PyVal.datetime _ => true
    | _ => false
  | FilterKind.numberRange, v =>
    match pyIntCoerce v with
    | Except.ok _ => true
    | Except.error _ => false

/-! ## Shared lemmas -/

/-- Characterisation of a successful `filter_queryset` call: either the
value was `None` and nothing happened, or the (possibly mutated) state
is `post_state`, exactly the built keyword predicate was chained, and
the query was executed just when the class is `NumberRangeFilter`. -/
theorem filter_queryset_of_ok (k : FilterKind) (f : FilterState) (qs : QuerySet) (v : PyVal)
    (f' : FilterState) (qs' : QuerySet) (ex : Bool)
    (h : filter_queryset_of k f qs v = Except.ok (f', qs', ex)) :
    (f.value = PyVal.none ∧ f' = f ∧ qs' = qs ∧ ex = false) ∨
    (f.value ≠ PyVal.none ∧ f' = post_state k f ∧
      qs' = qs.filter (kwargs_builder_of k (post_state k f) v) ∧
      ex = decide (k = FilterKind.numberRange)) := by
  cases k
  case number =>
    by_cases hv : f.value = PyVal.none
    · simp only [filter_queryset_of, NumberFilter.filter_queryset, if_pos hv, Except.ok.injEq,
        Prod.mk.injEq] at h
      exact Or.inl ⟨hv, h.1.symm, h.2.1.symm, h.2.2.symm⟩
    · simp only [filter_queryset_of, NumberFilter.filter_queryset, if_neg hv] at h
      split at h
      · simp at h
      · split at h
        · simp at h
        · simp only [Except.ok.injEq, Prod.mk.injEq] at h
          exact Or.inr ⟨hv, h.1.symm, h.2.1.symm, by rw [← h.2.2]; decide⟩
  case char =>
    by_cases hv : f.value = PyVal.none
    · simp only [filter_queryset_of, CharFilter.filter_queryset, if_pos hv, Except.ok.injEq,
        Prod.mk.injEq] at h
      exact Or.inl ⟨hv, h.1.symm, h.2.1.symm, h.2.2.symm⟩
    · simp only [filter_queryset_of, CharFilter.filter_queryset, if_neg hv] at h
      split at h
      · simp at h
      · split at h
        · simp at h
        · simp only [Except.ok.injEq, Prod.mk.injEq] at h
          exact Or.inr ⟨hv, h.1.symm, h.2.1.symm, by rw [← h.2.2]; decide⟩
  case inF tf =>
    by_cases hv : f.value = PyVal.none
    · simp only [filter_queryset_of, InFilter.filter_queryset, if_pos hv, Except.ok.injEq,
        Prod.mk.injEq] at h
      exact Or.inl ⟨hv, h.1.symm, h.2.1.symm, h.2.2.symm⟩
    · simp only [filter_queryset_of, InFilter.filter_queryset, if_neg hv] at h
      split at h
      · simp at h
      · simp only [Except.ok.injEq, Prod.mk.injEq] at h
        exact Or.inr ⟨hv, h.1.symm, h.2.1.symm, by rw [← h.2.2]; rfl⟩
  case datetime =>
    by_cases hv : f.value = PyVal.none
    · simp only [filter_queryset_of, DateTimeFilter.filter_queryset, if_pos hv, Except.ok.injEq,
        Prod.mk.injEq] at h
      exact Or.inl ⟨hv, h.1.symm, h.2.1.symm, h.2.2.symm⟩
    · simp only [filter_queryset_of, DateTimeFilter.filter_queryset, if_neg hv] at h
      split at h
      · simp at h
      · split at h
        · simp at h
        · simp only [Except.ok.injEq, Prod.mk.injEq] at h
          exact Or.inr ⟨hv, h.1.symm, h.2.1.symm, by rw [← h.2.2]; decide⟩
  case date =>
    by_cases hv : f.value = PyVal.none
    · simp only [filter_queryset_of, DateFilter.filter_queryset, if_pos hv, Except.ok.injEq,
        Prod.mk.injEq] at h
      exact Or.inl ⟨hv, h.1.symm, h.2.1.symm, h.2.2.symm⟩
    · simp only [filter_queryset_of, DateFilter.filter_queryset, if_neg hv] at h
      split at h
      · simp at h
      · split at h
        · simp at h
        · simp only [Except.ok.injEq, Prod.mk.injEq] at h
          exact Or.inr ⟨hv, h.1.symm, h.2.1.symm, by rw [← h.2.2]; decide⟩
  case numberRange =>
    by_cases hv : f.value = PyVal.none
    · simp only [filter_queryset_of, NumberRangeFilter.filter_queryset, if_pos hv, Except.ok.injEq,
        Prod.mk.injEq] at h
      exact Or.inl ⟨hv, h.1.symm, h.2.1.symm, h.2.2.symm⟩
    · simp only [filter_queryset_of, NumberRangeFilter.filter_queryset, if_neg hv] at h
      split at h
      · simp at h
      · split at h
        · simp at h
        · simp only [Except.ok.injEq, Prod.mk.injEq] at h
          exact Or.inr ⟨hv, h.1.symm, h.2.1.symm, by rw [← h.2.2]; decide⟩

/-- Characterisation of a successful pass of the filter-set loop: the
class attribute dictionary ends up mapped entrywise by `post_attr`,
and the returned queryset has exactly `applied_kwargs` chained onto
the starting one, in declaration order. -/
theorem runFilters_ok (params : QueryParams) :
    ∀ (attrs : List (String × ClassAttr)) (qs : QuerySet)
      (attrs' : List (String × ClassAttr)) (qs' : QuerySet) (ex : Bool),
      runFilters params attrs qs = Except.ok (attrs', qs', ex) →
      attrs' = attrs.map (post_attr params) ∧
      qs'.filters = qs.filters ++ applied_kwargs params attrs := by
  intro attrs
  induction attrs with
  | nil =>
    intro qs attrs' qs' ex h
    simp only [runFilters, Except.ok.injEq, Prod.mk.injEq] at h
    refine ⟨h.1.symm, ?_⟩
    rw [← h.2.1]
    simp [applied_kwargs]
  | cons hd tl ih =>
    obtain ⟨key, attr⟩ := hd
    intro qs attrs' qs' ex h
    cases attr with
    | other =>
      rcases hrf : runFilters params tl qs with e | ⟨rest', qs2, ex2⟩
      · simp [runFilters, hrf] at h
      · simp only [runFilters, hrf, Except.ok.injEq, Prod.mk.injEq] at h
        obtain ⟨ihA, ihB⟩ := ih qs rest' qs2 ex2 hrf
        constructor
        · rw [← h.1, ihA]
          simp [post_attr]
        · rw [← h.2.1]
          simpa [applied_kwargs] using ihB
    | filter k st =>
      rcases hp : params.lookup key with _ | v
      · rcases hrf : runFilters params tl qs with e | ⟨rest', qs2, ex2⟩
        · simp [runFilters, hp, hrf] at h
        · simp only [runFilters, hp, hrf, Except.ok.injEq, Prod.mk.injEq] at h
          obtain ⟨ihA, ihB⟩ := ih qs rest' qs2 ex2 hrf
          constructor
          · rw [← h.1, ihA]
            simp [post_attr, hp]
          · rw [← h.2.1]
            simpa [applied_kwargs, hp] using ihB
      · rcases hfq : filter_queryset_of k { st with value := v } qs v with e | ⟨st', qs1, ex1⟩
        · simp [runFilters, hp, hfq] at h
        · rcases hrf : runFilters params tl qs1 with e | ⟨rest', qs2, ex2⟩
          · simp [runFilters, hp, hfq, hrf] at h
          · simp only [runFilters, hp, hfq, hrf, Except.ok.injEq, Prod.mk.injEq] at h
            obtain ⟨ihA, ihB⟩ := ih qs1 rest' qs2 ex2 hrf
            have hspec := filter_queryset_of_ok k { st with value := v } qs v st' qs1 ex1 hfq
            rcases hspec with ⟨hv0, hst, hqs, _⟩ | ⟨hv0, hst, hqs, _⟩
            · have hv : v = PyVal.none := hv0
              constructor
              · rw [← h.1, ihA]
                simp [post_attr, hp, post_state_if, hv, hst]
              · rw [← h.2.1]
                rw [hqs] at ihB
                simpa [applied_kwargs, hp, expected_entry, hv] using ihB
            · have hv : ¬ v = PyVal.none := hv0
              constructor
              · rw [← h.1, ihA]
                simp [post_attr, hp, post_state_if, hv, hst]
              · rw [← h.2.1]
                rw [hqs] at ihB
                simp only [QuerySet.filter] at ihB
                rw [ihB]
                simp [applied_kwargs, hp, expected_entry, hv, List.append_assoc]

/-- The `check_fields_appearance` loop succeeds exactly when every
filter field name is a model field name, and otherwise raises exactly
`Exception("this field does not belong to model")`. -/
theorem check_fields_loop_spec (mf : List String) :
    ∀ l : List String,
      (check_fields_loop mf l = Except.ok () ↔ ∀ fn ∈ l, fn ∈ mf) ∧
      (check_fields_loop mf l = Except.error PyErr.fieldNotOnModel ↔ ∃ fn ∈ l, fn ∉ mf) := by
  intro l
  induction l with
  | nil => simp [check_fields_loop]
  | cons fn rest ih =>
    by_cases hfn : fn ∈ mf
    · constructor
      · rw [show check_fields_loop mf (fn :: rest) = check_fields_loop mf rest from if_pos hfn]
        rw [ih.1]
        simp [hfn]
      · rw [show check_fields_loop mf (fn :: rest) = check_fields_loop mf rest from if_pos hfn]
        rw [ih.2]
        simp [hfn]
    · constructor
      · rw [show check_fields_loop mf (fn :: rest) = Except.error PyErr.fieldNotOnModel from
          if_neg hfn]
        simp [hfn]
      · rw [show check_fields_loop mf (fn :: rest) = Except.error PyErr.fieldNotOnModel from
          if_neg hfn]
        simp [hfn]

/-- Updating a pydantic field dictionary at a fresh name appends. -/
theorem update_field_fresh (acc : List SchemaField) (nf : SchemaField)
    (h : ∀ f ∈ acc, f.name ≠ nf.name) : update_field acc nf = acc ++ [nf] := by
  have hany : acc.any (fun f => decide (f.name = nf.name)) = false := by
    rw [List.any_eq_false]
    intro f hf
    simpa using h f hf
  unfold update_field
  simp [hany]

/-- The accumulation loop of `to_dependencies`, run over class
attributes with pairwise distinct names (a class `__dict__` always has
distinct keys) starting from a field dictionary with disjoint names,
appends exactly the spec-described schema. -/
theorem to_dep_foldl :
    ∀ (attrs : List (String × ClassAttr)) (acc : List SchemaField),
      (attrs.map Prod.fst).Nodup →
      (∀ p ∈ attrs, ∀ f ∈ acc, f.name ≠ p.1) →
      (attrs.foldl (fun acc p =>
        match p.2 with
        | ClassAttr.filter k _ =>
          add_fields acc [(p.1, FieldDef.tupleDef (value_annot_of k) PyVal.none)]
        | ClassAttr.other => acc) acc) = acc ++ schema_spec attrs := by
  intro attrs
  induction attrs with
  | nil =>
    intro acc _ _
    simp [schema_spec]
  | cons hd tl ih =>
    obtain ⟨key, attr⟩ := hd
    intro acc hnd hfresh
    rw [List.map_cons, List.nodup_cons] at hnd
    obtain ⟨hk, hnd'⟩ := hnd
    cases attr with
    | other =>
      rw [List.foldl_cons]
      rw [ih acc hnd' (fun p hp f hf => hfresh p (List.mem_cons_of_mem _ hp) f hf)]
      simp [schema_spec]
    | filter k st =>
      rw [List.foldl_cons]
      dsimp only
      have hstep :
          add_fields acc [(key, FieldDef.tupleDef (value_annot_of k) PyVal.none)] =
            acc ++ [⟨key, optional_of (value_annot_of k), PyVal.none⟩] := by
        have := update_field_fresh acc ⟨key, optional_of (value_annot_of k), PyVal.none⟩
          (fun f hf => hfresh (key, ClassAttr.filter k st) (List.mem_cons_self _ _) f hf)
        simpa [add_fields] using this
      rw [hstep]
      have hfresh2 : ∀ p ∈ tl,
          ∀ f ∈ acc ++ [SchemaField.mk key (optional_of (value_annot_of k)) PyVal.none],
            f.name ≠ p.1 := by
        intro p hp f hf
        rcases List.mem_append.mp hf with hf | hf
        · exact hfresh p (List.mem_cons_of_mem _ hp) f hf
        · rcases List.mem_singleton.mp hf with rfl
          intro heq
          have hkey : key = p.1 := heq
          have hk' : key ∉ List.map Prod.fst tl := hk
          exact hk' (by rw [hkey]; exact List.mem_map_of_mem Prod.fst hp)
      rw [ih _ hnd' hfresh2]
      simp [schema_spec]

/-- Python's `int()` on any value either succeeds or raises a
`TypeError` or, for an unparsable string, a `ValueError`. -/
theorem pyIntCoerce_errors (v : PyVal) :
    (∃ n, pyIntCoerce v = Except.ok n) ∨
    (∃ msg, pyIntCoerce v = Except.error (PyErr.typeError msg)) ∨
    (∃ msg, pyIntCoerce v = Except.error (PyErr.valueError msg)) := by
  cases v with
  | none => simp [pyIntCoerce]
  | int n => simp [pyIntCoerce]
  | str s =>
    rcases hs : pyStrToInt? s with _ | m
    · simp [pyIntCoerce, hs]
    · simp [pyIntCoerce, hs]
  | list l => simp [pyIntCoerce]
  | datetime t => simp [pyIntCoerce]
  | date d => simp [pyIntCoerce]

/-- `to_internal_value` of every filter class either succeeds or raises
a `TypeError` or a `ValueError` — never a lookup-expression error. -/
theorem to_internal_errors (k : FilterKind) (v : PyVal) :
    to_internal_value_of k v = Except.ok () ∨
    (∃ msg, to_internal_value_of k v = Except.error (PyErr.typeError msg)) ∨
    (∃ msg, to_internal_value_of k v = Except.error (PyErr.valueError msg)) := by
  cases k
  case number =>
    rcases pyIntCoerce_errors v with ⟨n, hc⟩ | ⟨msg, hc⟩ | ⟨msg, hc⟩ <;>
      simp [to_internal_value_of, NumberFilter.to_internal_value, hc]
  case char => simp [to_internal_value_of, CharFilter.to_internal_value]
  case inF tf => cases v <;> simp [to_internal_value_of, InFilter.to_internal_value]
  case datetime => cases v <;> simp [to_internal_value_of, DateTimeFilter.to_internal_value]
  case date => cases v <;> simp [to_internal_value_of, DateFilter.to_internal_value]
  case numberRange =>
    rcases pyIntCoerce_errors v with ⟨n, hc⟩ | ⟨msg, hc⟩ | ⟨msg, hc⟩ <;>
      simp [to_internal_value_of, NumberRangeFilter.to_internal_value, hc]

/-- For every class that calls `_check_lookup_exr` (all but `InFilter`),
`filter_queryset` on a non-`None` value is: check the lookup, then
validate the value, then chain the built predicate. -/
theorem standard_filter_shape (k : FilterKind) (hk : checks_lookup k = true)
    (f : FilterState) (qs : QuerySet) (v : PyVal) (hv : f.value ≠ PyVal.none) :
    filter_queryset_of k f qs v =
      (match check_lookup_exr (available_expr_of k) f with
       | Except.error e => Except.error e
       | Except.ok _ =>
         match to_internal_value_of k f.value with
         | Except.error e => Except.error e
         | Except.ok _ =>
           Except.ok (f, qs.filter (kwargs_builder_of k f v),
             decide (k = FilterKind.numberRange))) := by
  cases k
  case number =>
    simp only [filter_queryset_of, NumberFilter.filter_queryset, if_neg hv]
    rfl
  case char =>
    simp only [filter_queryset_of, CharFilter.filter_queryset, if_neg hv]
    rfl
  case inF tf => simp [checks_lookup] at hk
  case datetime =>
    simp only [filter_queryset_of, DateTimeFilter.filter_queryset, if_neg hv]
    rfl
  case date =>
    simp only [filter_queryset_of, DateFilter.filter_queryset, if_neg hv]
    rfl
  case numberRange =>
    simp only [filter_queryset_of, NumberRangeFilter.filter_queryset, if_neg hv]
    rfl

/-! ## The claims -/

/-- C1: for every field filter class (NumberFilter, CharFilter,
InFilter, DateTimeFilter, DateFilter, NumberRangeFilter) and every
queryset, when the filter's `value` attribute is `None`,
`filter_queryset` returns the given queryset unchanged, raises no
exception and adds no predicate (and does not touch the filter
state). -/
theorem C1_none_value_noop (k : FilterKind) (f : FilterState) (qs : QuerySet) (v : PyVal)
    (h : f.value = PyVal.none) :
    filter_queryset_of k f qs v = Except.ok (f, qs, false) := by
  cases k <;>
    simp [filter_queryset_of, NumberFilter.filter_queryset, CharFilter.filter_queryset,
      InFilter.filter_queryset, DateTimeFilter.filter_queryset, DateFilter.filter_queryset,
      NumberRangeFilter.filter_queryset, h]

/-- Witness for C1 at a concrete no-op call. -/
theorem C1_none_value_noop_witness :
    filter_queryset_of FilterKind.number ⟨"age", some "gt", PyVal.none⟩ ⟨[]⟩ PyVal.none =
      Except.ok (⟨"age", some "gt", PyVal.none⟩, (⟨[]⟩ : QuerySet), false) :=
  C1_none_value_noop FilterKind.number ⟨"age", some "gt", PyVal.none⟩ ⟨[]⟩ PyVal.none rfl

/-- C2 counterexample: `InFilter.filter_queryset`, on a non-`None` list
value and the lookup expression `'gt'` — which is not in
`InFilter.available_expr = [None]` — raises no exception; it silently
overwrites the lookup with `'in'` and chains the predicate, so the
lookup allow-list validation is not performed by every class in the
hierarchy. -/
theorem C2_counterexample :
    InFilter.filter_queryset ⟨"id", some "gt", PyVal.list [PyScalar.int 1]⟩ ⟨[]⟩
        (PyVal.list [PyScalar.int 1]) =
      Except.ok (⟨"id", some "in", PyVal.list [PyScalar.int 1]⟩,
        (⟨[("id__in", PyVal.list [PyScalar.int 1])]⟩ : QuerySet), false) ∧
    some "gt" ∉ InFilter.available_expr := by
  constructor
  · rfl
  · decide

/-- C2 (amended): for every filter class except `InFilter`
(NumberFilter, CharFilter, DateTimeFilter, DateFilter,
NumberRangeFilter) with a non-`None` value, `filter_queryset` raises
the invalid-lookup-expression exception if and only if `lookup_expr`
is not in that class's `available_expr` allow-list (`None` in the list
meaning no suffix is allowed); `InFilter` performs no such validation:
it never raises an invalid-lookup error for any input, because it
unconditionally overwrites `lookup_expr` with `'in'`. -/
theorem C2_lookup_validation :
    (∀ (k : FilterKind) (f : FilterState) (qs : QuerySet) (v : PyVal),
      f.value ≠ PyVal.none → checks_lookup k = true →
      (filter_queryset_of k f qs v = Except.error (PyErr.invalidLookup f.lookup_expr) ↔
        f.lookup_expr ∉ available_expr_of k)) ∧
    (∀ (tf : PyType) (f : FilterState) (qs : QuerySet) (v : PyVal) (e : Option String),
      filter_queryset_of (FilterKind.inF tf) f qs v ≠ Except.error (PyErr.invalidLookup e)) := by
  constructor
  · intro k f qs v hv hk
    rw [standard_filter_shape k hk f qs v hv]
    by_cases hl : f.lookup_expr ∈ available_expr_of k
    · rw [show check_lookup_exr (available_expr_of k) f = Except.ok () from if_pos hl]
      simp only [hl, not_true_eq_false, iff_false]
      intro h
      rcases to_internal_errors k f.value with h1 | ⟨msg, h1⟩ | ⟨msg, h1⟩ <;>
        rw [h1] at h <;> simp at h
    · rw [show check_lookup_exr (available_expr_of k) f =
          Except.error (PyErr.invalidLookup f.lookup_expr) from if_neg hl]
      simp [hl]
  · intro tf f qs v e h
    by_cases hv : f.value = PyVal.none
    · simp [filter_queryset_of, InFilter.filter_queryset, hv] at h
    · cases hval : f.value <;>
        simp [filter_queryset_of, InFilter.filter_queryset, hval, InFilter.to_internal_value] at h

/-- Witness for C2 (amended): `NumberFilter` with the disallowed
lookup `'bad'` raises the invalid-lookup exception, applied through
the amended theorem. -/
theorem C2_lookup_validation_witness :
    filter_queryset_of FilterKind.number ⟨"age", some "bad", PyVal.int 1⟩ ⟨[]⟩ (PyVal.int 1) =
      Except.error (PyErr.invalidLookup (some "bad")) :=
  (C2_lookup_validation.1 FilterKind.number ⟨"age", some "bad", PyVal.int 1⟩ ⟨[]⟩ (PyVal.int 1)
    (by decide) (by decide)).mpr (by decide)

/-- The `check_fields_appearance` loop has only two outcomes: success,
or the field-not-on-model exception. -/
theorem check_fields_loop_cases (mf : List String) :
    ∀ l : List String, check_fields_loop mf l = Except.ok () ∨
      check_fields_loop mf l = Except.error PyErr.fieldNotOnModel := by
  intro l
  induction l with
  | nil => exact Or.inl rfl
  | cons fn rest ih =>
    by_cases h : fn ∈ mf
    · rw [show check_fields_loop mf (fn :: rest) = check_fields_loop mf rest from if_pos h]
      exact ih
    · exact Or.inr (if_neg h)

/-- C3: `BaseFilterSet.to_dependencies` validates that every declared
filter's `field_name` exists among the bound model's field names: it
succeeds exactly when every declared filter field name belongs to the
model, and raises `Exception("this field does not belong to model")`
exactly when some declared filter names a field not on the model. -/
theorem C3_to_dependencies_validates_fields (attrs : List (String × ClassAttr))
    (model : TortoiseModel) :
    ((∃ r, to_dependencies attrs model = Except.ok r) ↔
      ∀ fn ∈ filter_field_names attrs, fn ∈ model_field_names model) ∧
    (to_dependencies attrs model = Except.error PyErr.fieldNotOnModel ↔
      ∃ fn ∈ filter_field_names attrs, fn ∉ model_field_names model) := by
  have hspec := check_fields_loop_spec (model_field_names model) (filter_field_names attrs)
  rcases check_fields_loop_cases (model_field_names model) (filter_field_names attrs) with
    hck | hck
  · have hck' : check_fields_appearance attrs model = Except.ok () := hck
    have hok : ∃ r, to_dependencies attrs model = Except.ok r :=
      ⟨attrs.foldl (fun acc p =>
        match p.2 with
        | ClassAttr.filter k _ =>
          add_fields acc [(p.1, FieldDef.tupleDef (value_annot_of k) PyVal.none)]
        | ClassAttr.other => acc) [], by simp [to_dependencies, hck']⟩
    constructor
    · exact ⟨fun _ => hspec.1.mp hck, fun _ => hok⟩
    · constructor
      · intro h
        obtain ⟨r, hr⟩ := hok
        rw [hr] at h
        simp at h
      · rintro ⟨fn, hfn, hnot⟩
        exact absurd (hspec.1.mp hck fn hfn) hnot
  · have hck' : check_fields_appearance attrs model = Except.error PyErr.fieldNotOnModel := hck
    have herr : to_dependencies attrs model = Except.error PyErr.fieldNotOnModel := by
      simp [to_dependencies, hck']
    constructor
    · constructor
      · rintro ⟨r, hr⟩
        rw [herr] at hr
        simp at hr
      · intro hall
        rw [hspec.1.mpr hall] at hck
        simp at hck
    · exact ⟨fun _ => hspec.2.mp hck, fun _ => herr⟩

/-- Witness for C3 (both sides of the validation, at concrete
filter-set classes against a one-field model). -/
theorem C3_to_dependencies_validates_fields_witness :
    (∃ r, to_dependencies
        [("age", ClassAttr.filter FilterKind.number ⟨"age", Option.none, PyVal.none⟩)]
        ⟨[("age", ⟨"age"⟩)]⟩ = Except.ok r) ∧
    to_dependencies
        [("height", ClassAttr.filter FilterKind.number ⟨"height", Option.none, PyVal.none⟩)]
        ⟨[("age", ⟨"age"⟩)]⟩ = Except.error PyErr.fieldNotOnModel :=
  ⟨(C3_to_dependencies_validates_fields
      [("age", ClassAttr.filter FilterKind.number ⟨"age", Option.none, PyVal.none⟩)]
      ⟨[("age", ⟨"age"⟩)]⟩).1.mpr (by decide),
   (C3_to_dependencies_validates_fields
      [("height", ClassAttr.filter FilterKind.number ⟨"height", Option.none, PyVal.none⟩)]
      ⟨[("age", ⟨"age"⟩)]⟩).2.mpr (by decide)⟩

/-- C4: for every field filter class (whether it inherits
`BaseFieldFilter._kwargs_builder` or overrides it), the keyword
predicate built for the ORM filter call is the single-entry mapping
whose key is `field_name + "__" + lookup_expr` when `lookup_expr` is
not `None`, and exactly `field_name` when it is `None`, and whose
value is the given value. -/
theorem C4_kwargs_builder_single_entry (k : FilterKind) (f : FilterState) (v : PyVal) :
    kwargs_builder_of k f v =
      [((match f.lookup_expr with
         | some e => f.field_name ++ "__" ++ e
         | Option.none => f.field_name), v)] := by
  cases k <;> cases hl : f.lookup_expr <;>
    simp [kwargs_builder_of, kwargs_builder, DateTimeFilter.kwargs_builder,
      DateFilter.kwargs_builder, NumberRangeFilter.kwargs_builder, hl]

/-- C6 counterexample: `DateRangeFilter` and `DateTimeRangeFilter`
cannot be instantiated as field filters — their class bodies are bare
docstrings, so the abstract `filter_queryset` and `to_internal_value`
of `BaseFieldFilter` stay unimplemented and Python's ABC machinery
rejects instantiation. -/
theorem C6_counterexample :
    DateRangeFilter.decl.instantiable = false ∧
    DateTimeRangeFilter.decl.instantiable = false := by
  decide

/-- C6 (amended): the hierarchy declares `DateRangeFilter` and
`DateTimeRangeFilter`, but they are unusable stubs: they override
neither `to_internal_value` nor `filter_queryset`, so they cannot be
instantiated, validate no value and build no predicate; the six other
filter classes implement both abstract methods and are
instantiable. -/
theorem C6_range_filters_are_stubs :
    DateRangeFilter.decl.instantiable = false ∧
    DateTimeRangeFilter.decl.instantiable = false ∧
    NumberFilter.decl.instantiable = true ∧
    CharFilter.decl.instantiable = true ∧
    InFilter.decl.instantiable = true ∧
    DateTimeFilter.decl.instantiable = true ∧
    DateFilter.decl.instantiable = true ∧
    NumberRangeFilter.decl.instantiable = true := by
  decide

/-- C7: on success, `to_dependencies` returns the schema with exactly
one field per declared field filter, named after the filter's
attribute name on the filter-set class, with annotation
`Optional[<the entry of 'value' in the filter's annotations>]` and
default `None`, and with no field for non-filter attributes
(`schema_spec` is that description, written from the claim).  The
attribute names are pairwise distinct, as the keys of a Python class
`__dict__` always are. -/
theorem C7_to_dependencies_schema (attrs : List (String × ClassAttr)) (model : TortoiseModel)
    (r : List SchemaField) (hnd : (attrs.map Prod.fst).Nodup)
    (h : to_dependencies attrs model = Except.ok r) :
    r = schema_spec attrs := by
  rcases check_fields_loop_cases (model_field_names model) (filter_field_names attrs) with
    hck | hck
  · have hck' : check_fields_appearance attrs model = Except.ok () := hck
    simp only [to_dependencies, hck', Except.ok.injEq] at h
    rw [← h]
    have h2 := to_dep_foldl attrs [] hnd (by intro p hp f hf; simp at hf)
    rw [List.nil_append] at h2
    exact h2
  · have hck' : check_fields_appearance attrs model = Except.error PyErr.fieldNotOnModel := hck
    simp [to_dependencies, hck'] at h

/-- Witness for C7 at a two-attribute class (one number filter, one
plain attribute) over a matching model. -/
theorem C7_to_dependencies_schema_witness :
    to_dependencies
        [("age", ClassAttr.filter FilterKind.number ⟨"age", Option.none, PyVal.none⟩),
         ("meta", ClassAttr.other)]
        ⟨[("age", ⟨"age"⟩)]⟩ =
      Except.ok [⟨"age", PyType.optional PyType.intT, PyVal.none⟩] ∧
    [SchemaField.mk "age" (PyType.optional PyType.intT) PyVal.none] =
      schema_spec
        [("age", ClassAttr.filter FilterKind.number ⟨"age", Option.none, PyVal.none⟩),
         ("meta", ClassAttr.other)] :=
  ⟨by decide,
   C7_to_dependencies_schema
     [("age", ClassAttr.filter FilterKind.number ⟨"age", Option.none, PyVal.none⟩),
      ("meta", ClassAttr.other)]
     ⟨[("age", ⟨"age"⟩)]⟩
     [⟨"age", PyType.optional PyType.intT, PyVal.none⟩] (by decide) (by decide)⟩

/-- C8 counterexample: `NumberFilter` with the non-`None` value
`"abc"` — not coercible to `int` — and the allowed lookup `'gt'` does
not raise `TypeError('Invalid type')`: `int("abc")` raises
`ValueError`, which the `except TypeError` clause does not catch, so
the uncaught `ValueError` propagates. -/
theorem C8_counterexample :
    NumberFilter.filter_queryset ⟨"age", some "gt", PyVal.str "abc"⟩ ⟨[]⟩ (PyVal.str "abc") =
      Except.error (PyErr.valueError "invalid literal for int() with base 10") ∧
    PyErr.valueError "invalid literal for int() with base 10" ≠
      PyErr.typeError "Invalid type" := by
  decide

/-- C8 (amended): for every field filter with a non-`None` value and
an allowed `lookup_expr`, `filter_queryset` validates the value before
building the predicate and raises exactly the exception
`to_internal_value` raises — `TypeError('Invalid type')` when the
value fails the class's type check with a `TypeError` (any non-string
non-int for the number filters, a non-list for `InFilter`, a
non-datetime for `DateTimeFilter`, a value neither date nor datetime
for `DateFilter`), but an uncaught `ValueError` for a non-numeric
string in the number filters — and raises no exception otherwise;
`CharFilter` accepts every value. -/
theorem C8_type_validation :
    (∀ (k : FilterKind) (f : FilterState) (qs : QuerySet) (v : PyVal),
      f.value ≠ PyVal.none → f.lookup_expr ∈ available_expr_of k →
      ∀ e, (filter_queryset_of k f qs v = Except.error e ↔
        to_internal_value_of k f.value = Except.error e)) ∧
    (∀ (k : FilterKind) (v : PyVal),
      (to_internal_value_of k v = Except.ok () ↔ valid_value k v = true)) := by
  constructor
  · intro k f qs v hv hl e
    by_cases hk : checks_lookup k = true
    · rw [standard_filter_shape k hk f qs v hv]
      rw [show check_lookup_exr (available_expr_of k) f = Except.ok () from if_pos hl]
      rcases hti : to_internal_value_of k f.value with e2 | u
      · simp [hti]
      · simp [hti]
    · cases k <;> simp [checks_lookup] at hk
      rcases hti : InFilter.to_internal_value f.value with e2 | u <;>
        simp [filter_queryset_of, InFilter.filter_queryset, if_neg hv,
          to_internal_value_of, hti]
  · intro k v
    cases k
    case number =>
      rcases pyIntCoerce_errors v with ⟨n, hc⟩ | ⟨msg, hc⟩ | ⟨msg, hc⟩ <;>
        simp [to_internal_value_of, NumberFilter.to_internal_value, valid_value, hc]
    case char => simp [to_internal_value_of, CharFilter.to_internal_value, valid_value]
    case inF tf =>
      cases v <;> simp [to_internal_value_of, InFilter.to_internal_value, valid_value]
    case datetime =>
      cases v <;> simp [to_internal_value_of, DateTimeFilter.to_internal_value, valid_value]
    case date =>
      cases v <;> simp [to_internal_value_of, DateFilter.to_internal_value, valid_value]
    case numberRange =>
      rcases pyIntCoerce_errors v with ⟨n, hc⟩ | ⟨msg, hc⟩ | ⟨msg, hc⟩ <;>
        simp [to_internal_value_of, NumberRangeFilter.to_internal_value, valid_value, hc]

/-- Witness for C8 (amended): `DateTimeFilter` on the int value `5`
with the allowed lookup `'gte'` raises `TypeError('Invalid type')`,
obtained through the amended theorem. -/
theorem C8_type_validation_witness :
    filter_queryset_of FilterKind.datetime ⟨"ts", some "gte", PyVal.int 5⟩ ⟨[]⟩ (PyVal.int 5) =
      Except.error (PyErr.typeError "Invalid type") :=
  (C8_type_validation.1 FilterKind.datetime ⟨"ts", some "gte", PyVal.int 5⟩ ⟨[]⟩ (PyVal.int 5)
    (by decide) (by decide) (PyErr.typeError "Invalid type")).mpr (by decide)

/-- C5 counterexample: a declared filter whose attribute name appears
as a key of `query_params` with the value `None` is invoked but chains
no ORM filter call at all — the claim's "each applied once by chaining
one ORM filter call" predicts one chained predicate here, the code
chains zero (the descriptor's `value` is first overwritten with `None`
and the call is then a no-op). -/
theorem C5_counterexample :
    FilterSet.filter_queryset
        ⟨[("age", ClassAttr.filter FilterKind.number ⟨"age", some "gte", PyVal.int 3⟩)]⟩
        [("age", PyVal.none)] =
      Except.ok
        (⟨[("age", ClassAttr.filter FilterKind.number ⟨"age", some "gte", PyVal.none⟩)]⟩,
          (⟨[]⟩ : QuerySet), false) ∧
    "age" ∈ ([("age", PyVal.none)] : QueryParams).map Prod.fst := by
  decide

/-- C5 (amended): on success, `FilterSet.filter_queryset` chains onto
the model's base queryset exactly the predicates of `applied_kwargs`:
walking the class attributes in declaration order, each declared
filter whose attribute name appears as a key of `query_params`
contributes exactly one ORM filter call with its single built
predicate when the supplied parameter value is non-`None` (validation
having passed), and contributes nothing when the supplied value is
`None`; filters whose attribute name is absent from `query_params`,
and non-filter attributes, leave the queryset untouched. -/
theorem C5_declaration_order_application (cd : ClassDict) (params : QueryParams)
    (cd' : ClassDict) (qs : QuerySet) (ex : Bool)
    (h : FilterSet.filter_queryset cd params = Except.ok (cd', qs, ex)) :
    qs.filters = applied_kwargs params cd.attrs := by
  unfold FilterSet.filter_queryset at h
  rcases hrf : runFilters params cd.attrs get_queryset with e | ⟨attrs', qs2, ex2⟩
  · rw [hrf] at h
    simp at h
  · rw [hrf] at h
    simp only [Except.ok.injEq, Prod.mk.injEq] at h
    have hmain := (runFilters_ok params cd.attrs get_queryset attrs' qs2 ex2 hrf).2
    rw [← h.2.1]
    simpa [get_queryset] using hmain

/-- Witness for C5 (amended): a class with a matched number filter and
an unmatched char filter; only the matched one contributes its single
predicate. -/
theorem C5_declaration_order_application_witness :
    (QuerySet.mk [("age__gte", PyVal.int 21)]).filters =
      applied_kwargs [("age", PyVal.int 21)]
        [("age", ClassAttr.filter FilterKind.number ⟨"age", some "gte", PyVal.none⟩),
         ("name", ClassAttr.filter FilterKind.char ⟨"name", Option.none, PyVal.none⟩)] :=
  C5_declaration_order_application
    ⟨[("age", ClassAttr.filter FilterKind.number ⟨"age", some "gte", PyVal.none⟩),
      ("name", ClassAttr.filter FilterKind.char ⟨"name", Option.none, PyVal.none⟩)]⟩
    [("age", PyVal.int 21)]
    ⟨[("age", ClassAttr.filter FilterKind.number ⟨"age", some "gte", PyVal.int 21⟩),
      ("name", ClassAttr.filter FilterKind.char ⟨"name", Option.none, PyVal.none⟩)]⟩
    ⟨[("age__gte", PyVal.int 21)]⟩ false (by decide)

/-- `post_state` never touches the `value` attribute. -/
theorem post_state_value (k : FilterKind) (f : FilterState) :
    (post_state k f).value = f.value := by
  cases k <;> simp [post_state]

/-- `post_state_if` never touches the `value` attribute. -/
theorem post_state_if_value (k : FilterKind) (f : FilterState) :
    (post_state_if k f).value = f.value := by
  unfold post_state_if
  split
  · rfl
  · exact post_state_value k f

/-- C9: `FilterSet.filter_queryset` is not effect-free on the
filter-set class.  On success the class-level attribute dictionary
comes back transformed entrywise by `post_attr`, and in particular for
every query parameter whose key names a declared filter, the
parameter's value has been assigned to the `value` attribute of that
class-level filter descriptor.  The dictionary is the class's, not an
instance's, so the assignment is visible to every instance of the
filter-set class and persists after the call returns. -/
theorem C9_class_descriptor_mutation (cd : ClassDict) (params : QueryParams)
    (cd' : ClassDict) (qs : QuerySet) (ex : Bool)
    (h : FilterSet.filter_queryset cd params = Except.ok (cd', qs, ex)) :
    cd'.attrs = cd.attrs.map (post_attr params) ∧
    (∀ (key : String) (k : FilterKind) (st : FilterState) (v : PyVal),
      (key, ClassAttr.filter k st) ∈ cd.attrs → params.lookup key = some v →
      ∃ st', (key, ClassAttr.filter k st') ∈ cd'.attrs ∧ st'.value = v) := by
  have hattrs : cd'.attrs = cd.attrs.map (post_attr params) := by
    unfold FilterSet.filter_queryset at h
    rcases hrf : runFilters params cd.attrs get_queryset with e | ⟨attrs', qs2, ex2⟩
    · rw [hrf] at h
      simp at h
    · rw [hrf] at h
      simp only [Except.ok.injEq, Prod.mk.injEq] at h
      have hmain := (runFilters_ok params cd.attrs get_queryset attrs' qs2 ex2 hrf).1
      rw [← h.1]
      exact hmain
  refine ⟨hattrs, ?_⟩
  intro key k st v hmem hp
  refine ⟨post_state_if k { st with value := v }, ?_, ?_⟩
  · rw [hattrs]
    have hpost : post_attr params (key, ClassAttr.filter k st) =
        (key, ClassAttr.filter k (post_state_if k { st with value := v })) := by
      simp [post_attr, hp]
    rw [← hpost]
    exact List.mem_map_of_mem (post_attr params) hmem
  · rw [post_state_if_value]

/-- Witness for C9: one number-filter descriptor with `value = None`;
after the call the class-level descriptor holds the parameter value
`7`. -/
theorem C9_class_descriptor_mutation_witness :
    (ClassDict.mk
        [("age", ClassAttr.filter FilterKind.number ⟨"age", some "gte", PyVal.int 7⟩)]).attrs =
      [("age", ClassAttr.filter FilterKind.number ⟨"age", some "gte", PyVal.none⟩)].map
        (post_attr [("age", PyVal.int 7)]) :=
  (C9_class_descriptor_mutation
    ⟨[("age", ClassAttr.filter FilterKind.number ⟨"age", some "gte", PyVal.none⟩)]⟩
    [("age", PyVal.int 7)]
    ⟨[("age", ClassAttr.filter FilterKind.number ⟨"age", some "gte", PyVal.int 7⟩)]⟩
    ⟨[("age__gte", PyVal.int 7)]⟩ false (by decide)).1

/-- C10: `NumberRangeFilter.filter_queryset`, when its value is not
`None` and the call succeeds, has awaited the filtered queryset — it
executed the underlying query as a side effect (the flag in the
result) before returning the still-chainable queryset — while a
successful `filter_queryset` of every other filter class never
executes the query. -/
theorem C10_number_range_executes_query :
    (∀ (f : FilterState) (qs : QuerySet) (v : PyVal) (f' : FilterState) (qs' : QuerySet)
      (ex : Bool), f.value ≠ PyVal.none →
      filter_queryset_of FilterKind.numberRange f qs v = Except.ok (f', qs', ex) →
      ex = true) ∧
    (∀ (k : FilterKind) (f : FilterState) (qs : QuerySet) (v : PyVal) (f' : FilterState)
      (qs' : QuerySet) (ex : Bool), k ≠ FilterKind.numberRange →
      filter_queryset_of k f qs v = Except.ok (f', qs', ex) → ex = false) := by
  constructor
  · intro f qs v f' qs' ex hv h
    rcases filter_queryset_of_ok FilterKind.numberRange f qs v f' qs' ex h with
      ⟨hv0, _, _, _⟩ | ⟨_, _, _, hex⟩
    · exact absurd hv0 hv
    · rw [hex]
      rfl
  · intro k f qs v f' qs' ex hk h
    rcases filter_queryset_of_ok k f qs v f' qs' ex h with
      ⟨_, _, _, hex⟩ | ⟨_, _, _, hex⟩
    · exact hex
    · rw [hex]
      exact decide_eq_false hk

/-- Witness for C10: a concrete `NumberRangeFilter` call both chains
its predicate and reports the query as executed. -/
theorem C10_number_range_executes_query_witness :
    filter_queryset_of FilterKind.numberRange ⟨"n", some "gte", PyVal.int 3⟩ ⟨[]⟩ (PyVal.int 3) =
      Except.ok (⟨"n", some "gte", PyVal.int 3⟩, (⟨[("n__gte", PyVal.int 3)]⟩ : QuerySet), true) ∧
    true = true :=
  ⟨by decide,
   C10_number_range_executes_query.1 ⟨"n", some "gte", PyVal.int 3⟩ ⟨[]⟩ (PyVal.int 3)
     ⟨"n", some "gte", PyVal.int 3⟩ ⟨[("n__gte", PyVal.int 3)]⟩ true (by decide) (by decide)⟩

end TortoiseFilters
